import Mathlib

/-!
Verification of the pothole-detection decision layer: the danger classifier,
the ranking of detections, the model-resolution fallback chain, and the
HTTP request handler, embedded shallowly from `ai-service/detector.py` and
`ai-service/main.py`.  Python floats are modelled as exact rationals; the
external world (filesystem, network, the YOLO predictor, image decoding)
is passed in explicitly as outcome parameters.
-/

namespace Pothole

/-! ## Constants (detector.py, module level) -/

/-- Constant `DANGER_THRESHOLDS["confidence"]["critical"]` (detector.py line 37). -/
def dangerThresholdConfidenceCritical : ℚ := 75 / 100

/-- Constant `DANGER_THRESHOLDS["confidence"]["moderate"]` (detector.py line 37). -/
def dangerThresholdConfidenceModerate : ℚ := 50 / 100

/-- Default `CONFIDENCE_THRESHOLD` (detector.py line 19, main.py line 119). -/
def defaultConfidenceThreshold : ℚ := 15 / 100

/-- One entry of the `DANGER_LEVELS` dict (detector.py lines 29-33). -/
structure DangerInfo where
  color : String
  priority : ℕ
  label : String
  deriving DecidableEq, Repr

/-- The `DANGER_LEVELS` dict (detector.py lines 29-33), as a lookup. -/
def DANGER_LEVELS (s : String) : Option DangerInfo :=
  if s = "critical" then some ⟨"red", 1, "Critical — Immediate Danger"⟩
  else if s = "moderate" then some ⟨"yellow", 2, "Moderate — Needs Attention"⟩
  else if s = "minor" then some ⟨"green", 3, "Minor — Monitor"⟩
  else none

/-- The `CLASS_MAP` dict (detector.py lines 42-51), as a lookup. -/
def CLASS_MAP (s : String) : Option String :=
  if s = "pothole" then some "pothole"
  else if s = "Pothole" then some "pothole"
  else if s = "D00" then some "longitudinal_crack"
  else if s = "D10" then some "transverse_crack"
  else if s = "D20" then some "alligator_crack"
  else if s = "D40" then some "pothole"
  else none

/-- The inline `legacy_severity` dict (detector.py line 219). -/
def legacySeverityMap (s : String) : Option String :=
  if s = "critical" then some "high"
  else if s = "moderate" then some "medium"
  else if s = "minor" then some "low"
  else none

/-! ## Python `round` on rationals (banker's rounding, `round(x, n)`) -/

/-- Round to the nearest integer, halves to the even neighbour, as Python's
built-in `round` does on the exact value. -/
def roundHalfEven (q : ℚ) : ℤ :=
  let n := ⌊q⌋
  let frac := q - (n : ℚ)
  if frac < 1 / 2 then n
  else if 1 / 2 < frac then n + 1
  else if n % 2 = 0 then n else n + 1

/-- Python's `round(q, ndigits)` for a nonnegative digit count. -/
def pyRound (q : ℚ) (ndigits : ℕ) : ℚ :=
  (roundHalfEven (q * 10 ^ ndigits) : ℚ) / 10 ^ ndigits

/-! ## Geometry helpers (detector.py `_compute_bbox_area`, `_classify_danger`) -/

/-- Function `_compute_bbox_area` (detector.py lines 136-140): the guard
`if not bbox or len(bbox) < 4` collapses to a length test. -/
def computeBboxArea (bbox : List ℚ) : ℚ :=
  if bbox.length < 4 then 0
  else max 0 (bbox.getD 2 0 - bbox.getD 0 0) * max 0 (bbox.getD 3 0 - bbox.getD 1 0)

/-- The divisor `max(image_width * image_height, 1)` (detector.py line 153), as a rational. -/
def imageArea (w h : ℤ) : ℚ := ((max (w * h) 1 : ℤ) : ℚ)

/-- Function `_classify_danger` (detector.py lines 143-164). -/
def classifyDanger (confidence : ℚ) (bbox : List ℚ) (w h : ℤ) : String :=
  let bboxArea := computeBboxArea bbox
  let areaRatio := bboxArea / imageArea w h
  let dangerScore := confidence * (7 / 10) + min (areaRatio / (15 / 100)) 1 * (3 / 10)
  if dangerThresholdConfidenceCritical ≤ confidence ∨ (70 / 100 : ℚ) ≤ dangerScore then
    "critical"
  else if dangerThresholdConfidenceModerate ≤ confidence ∨ (40 / 100 : ℚ) ≤ dangerScore then
    "moderate"
  else "minor"

/-! ## Per-detection record building (detector.py `detect`, lines 206-230) -/

/-- One raw box as emitted by the external detector: resolved class label,
confidence and `xyxy` coordinates (all unrounded). -/
structure RawDetection where
  rawLabel : String
  confidence : ℚ
  bbox : List ℚ
  deriving DecidableEq, Repr

/-- One entry of `all_detections` (detector.py lines 221-230). -/
structure ClassifiedDetection where
  defect_type : String
  raw_class : String
  confidence : ℚ
  danger_level : String
  danger_label : String
  danger_priority : ℕ
  severity : String
  bbox : List ℚ
  deriving DecidableEq, Repr

instance : Inhabited ClassifiedDetection := ⟨⟨"", "", 0, "", "", 0, "", []⟩⟩

/-- The loop body of `detect` (detector.py lines 207-230): bbox coordinates are
rounded to 2 decimals before danger classification, the stored confidence is
rounded to 4 decimals, and classification uses the unrounded confidence.
The `DANGER_LEVELS[danger]` and `legacy_severity[danger]` dict lookups always
succeed because `_classify_danger` only returns the three keys; the `getD`
defaults are unreachable. -/
def buildDetection (raw : RawDetection) (w h : ℤ) : ClassifiedDetection :=
  let defect := (CLASS_MAP raw.rawLabel).getD raw.rawLabel.toLower
  let bbox := raw.bbox.map (fun v => pyRound v 2)
  let danger := classifyDanger raw.confidence bbox w h
  let info := (DANGER_LEVELS danger).getD ⟨"", 0, ""⟩
  let sev := (legacySeverityMap danger).getD ""
  ⟨defect, raw.rawLabel, pyRound raw.confidence 4, danger, info.label, info.priority, sev,
    bbox⟩

/-! ## Ranking (detector.py line 234) -/

/-- The comparison induced by the Python sort key
`(x["danger_priority"], -x["confidence"])`: ascending lexicographic order. -/
def keyLe (a b : ClassifiedDetection) : Bool :=
  decide (a.danger_priority < b.danger_priority ∨
    (a.danger_priority = b.danger_priority ∧ -a.confidence ≤ -b.confidence))

/-- The sort `all_detections.sort(key=...)` (detector.py line 234): Python's sort is a
stable sort on the key, modelled by `List.mergeSort`. -/
def rankDetections (ds : List ClassifiedDetection) : List ClassifiedDetection :=
  ds.mergeSort keyLe

/-! ## The full `detect` result (detector.py lines 190-253) -/

/-- The JSON object returned by `detect`; `none` is JSON `null`.  In the
zero-detection branch the code stores the number `0.0` — not `null` — in the
`confidence` field, so the field is `some 0` there. -/
structure DetectResponse where
  defect_type : Option String
  raw_class : Option String
  confidence : Option ℚ
  danger_level : Option String
  danger_label : Option String
  danger_priority : Option ℕ
  severity : Option String
  bbox : Option (List ℚ)
  all_detections : List ClassifiedDetection
  deriving DecidableEq, Repr

/-- Result of `detect` after a successful decode and predict call, as a function of the
raw boxes and the image dimensions (detector.py lines 190-253). -/
def detectFromBoxes (boxes : List RawDetection) (w h : ℤ) : DetectResponse :=
  if boxes.isEmpty then
    ⟨none, none, some 0, none, none, none, none, none, []⟩
  else
    let ranked := rankDetections (boxes.map (fun r => buildDetection r w h))
    let best := ranked.headD default
    ⟨some best.defect_type, some best.raw_class, some best.confidence,
      some best.danger_level, some best.danger_label, some best.danger_priority,
      some best.severity, some best.bbox, ranked⟩

/-! ## Model resolution (detector.py `load_model`, lines 69-121) -/

/-- The external-world outcomes that `load_model` branches on: file-existence
checks (`os.path.exists`), whether `MODEL_PATH` is set to a non-empty string,
whether the `YOLO(model_path)` constructor call on the priority-1/2 candidate
raises, and whether the HuggingFace download / load raise. -/
structure ModelEnv where
  localExists : Bool
  modelPathSet : Bool
  modelPathExists : Bool
  directLoadOk : Bool
  hfDownloadOk : Bool
  hfLoadOk : Bool
  deriving DecidableEq, Repr

/-- Which weights `load_model` resolved to. -/
inductive ModelSource
  | localFinetuned
  | envOverride
  | hfHub
  | cocoFallback
  deriving DecidableEq, Repr

/-- The candidate selection of detector.py lines 81-91: priority 1 is the
local fine-tuned file, priority 2 the `MODEL_PATH` override; `MODEL_PATH` is
consulted only when the local file does not exist. -/
def chooseCandidate (env : ModelEnv) : Option ModelSource :=
  if env.localExists then some ModelSource.localFinetuned
  else if env.modelPathSet && env.modelPathExists then some ModelSource.envOverride
  else none

/-- Function `load_model` (detector.py lines 69-121) as a function of the external
outcomes, returning `Except` to make raising explicit.  The priority-1/2 load
failure is caught (lines 95-100), the HuggingFace level is wrapped in
`try/except` (lines 103-109).  The final `YOLO("yolov8n.pt")` call (line 115)
is modelled as always succeeding, per the guarantee that the generic COCO
fallback weights exist with no further dependency. -/
def loadModel (env : ModelEnv) : Except String ModelSource :=
  let afterDirect : Option ModelSource :=
    match chooseCandidate env with
    | some c => if env.directLoadOk then some c else none
    | none => none
  let afterHf : Option ModelSource :=
    match afterDirect with
    | some c => some c
    | none => if env.hfDownloadOk && env.hfLoadOk then some ModelSource.hfHub else none
  match afterHf with
  | some c => Except.ok c
  | none => Except.ok ModelSource.cocoFallback

/-! ## HTTP handler (main.py `detect_defect`, lines 94-126, and `detect`'s
interaction with the outside world, detector.py lines 184-188) -/

/-- Which external calls the request actually performed. -/
structure Trace where
  loadModelInvoked : Bool
  predictInvoked : Bool
  deriving DecidableEq, Repr

/-- Outcome of the body of `detect`: either the response dict, or a raised
exception (named by the failure condition). -/
inductive DetectOutcome
  | ok (r : DetectResponse)
  | raised (msg : String)
  deriving DecidableEq, Repr

/-- Function `detect` (detector.py lines 167-253) as a function of the decode outcome
(`none` = `Image.open` raises) and the predict outcome (`Except.error` = the
YOLO call raises).  The statement order of the source is kept: `load_model()`
runs first (line 184), then the image is decoded (line 185), then the model
predicts (line 188). -/
def detectRun (decode : Option (ℤ × ℤ)) (predict : Except Unit (List RawDetection)) :
    DetectOutcome × Trace :=
  match decode with
  | none => (DetectOutcome.raised "InvalidImage", ⟨true, false⟩)
  | some (w, h) =>
    match predict with
    | Except.error _ => (DetectOutcome.raised "InferenceFailure", ⟨true, true⟩)
    | Except.ok boxes => (DetectOutcome.ok (detectFromBoxes boxes w h), ⟨true, true⟩)

/-- The HTTP response of `POST /detect`. -/
inductive HttpResponse
  | ok (r : DetectResponse) (is_valid : Bool)
  | clientError (code : ℕ) (msg : String)
  | serverError (code : ℕ) (msg : String)
  deriving DecidableEq, Repr

/-- The set `{"image/jpeg", "image/png", "image/webp"}` (main.py line 109). -/
def allowedTypes : List String := ["image/jpeg", "image/png", "image/webp"]

/-- The value `result["confidence"]` as read by main.py line 120; the field is a number
in every code path, so the default is unreachable. -/
def respConfidence (r : DetectResponse) : ℚ := r.confidence.getD 0

/-- Handler `detect_defect` (main.py lines 94-126): the content-type gate runs before
anything else; every exception escaping `detect` becomes an HTTP 500 with a
`"Detection failed: "` message; on success `is_valid` is
`result["confidence"] >= threshold`. -/
def detectDefect (contentType : String) (decode : Option (ℤ × ℤ))
    (predict : Except Unit (List RawDetection)) (threshold : ℚ) :
    HttpResponse × Trace :=
  if contentType ∈ allowedTypes then
    match detectRun decode predict with
    | (DetectOutcome.ok r, tr) =>
        (HttpResponse.ok r (decide (threshold ≤ respConfidence r)), tr)
    | (DetectOutcome.raised m, tr) =>
        (HttpResponse.serverError 500 ("Detection failed: " ++ m), tr)
  else
    (HttpResponse.clientError 400
      ("Unsupported type: " ++ contentType ++ ". Use JPEG, PNG, or WebP."), ⟨false, false⟩)

/-! ## Helper lemmas -/

/-- Characterisation used to evaluate `⌊·⌋` on concrete rationals. -/
theorem floor_eq_of (q : ℚ) (n : ℤ) (h1 : (n : ℚ) ≤ q) (h2 : q < n + 1) : ⌊q⌋ = n :=
  Int.floor_eq_iff.mpr ⟨h1, h2⟩

/-- Sorting a two-element list is a single comparison. -/
theorem mergeSort_pair {α : Type} (le : α → α → Bool) (a b : α) :
    [a, b].mergeSort le = if le a b then [a, b] else [b, a] := by
  cases h : le a b <;> simp [List.mergeSort, List.merge, h]

/-- The Python sort-key comparison is transitive. -/
theorem keyLe_trans (a b c : ClassifiedDetection)
    (h1 : keyLe a b = true) (h2 : keyLe b c = true) : keyLe a c = true := by
  simp only [keyLe, decide_eq_true_eq] at h1 h2 ⊢
  rcases h1 with h1 | ⟨h1, h1'⟩ <;> rcases h2 with h2 | ⟨h2, h2'⟩
  · exact Or.inl (h1.trans h2)
  · exact Or.inl (h2 ▸ h1)
  · exact Or.inl (h1 ▸ h2)
  · exact Or.inr ⟨h1.trans h2, h1'.trans h2'⟩

/-- The Python sort-key comparison is total. -/
theorem keyLe_total (a b : ClassifiedDetection) : (keyLe a b || keyLe b a) = true := by
  simp only [keyLe, Bool.or_eq_true, decide_eq_true_eq]
  rcases lt_trichotomy a.danger_priority b.danger_priority with h | h | h
  · exact Or.inl (Or.inl h)
  · rcases le_total (-a.confidence) (-b.confidence) with hc | hc
    · exact Or.inl (Or.inr ⟨h, hc⟩)
    · exact Or.inr (Or.inr ⟨h.symm, hc⟩)
  · exact Or.inr (Or.inl h)

/-- Stability of the ranking: elements that all compare `keyLe` to each other
(in particular, elements whose sort keys are all equal) keep their original
relative order through `mergeSort`. -/
theorem filter_mergeSort_eq (l : List ClassifiedDetection) (p : ClassifiedDetection → Bool)
    (hp : ∀ a b, p a = true → p b = true → keyLe a b = true) :
    (l.mergeSort keyLe).filter p = l.filter p := by
  have hpair : (l.filter p).Pairwise (fun a b => keyLe a b = true) :=
    List.pairwise_of_forall_mem_list fun a ha b hb =>
      hp a b (List.of_mem_filter ha) (List.of_mem_filter hb)
  have hsub : List.Sublist (l.filter p) (l.mergeSort keyLe) :=
    List.sublist_mergeSort (fun a b c h1 h2 => keyLe_trans a b c h1 h2)
      (fun a b => keyLe_total a b) hpair (List.filter_sublist l)
  have hsub2 : List.Sublist ((l.filter p).filter p) ((l.mergeSort keyLe).filter p) :=
    hsub.filter p
  rw [List.filter_filter] at hsub2
  simp only [Bool.and_self] at hsub2
  have hlen : ((l.mergeSort keyLe).filter p).length = (l.filter p).length :=
    ((List.mergeSort_perm l keyLe).filter p).length_eq
  exact (hsub2.eq_of_length hlen.symm).symm

/-- Function `_classify_danger` only ever returns one of the three level names. -/
theorem classifyDanger_cases (c : ℚ) (b : List ℚ) (w h : ℤ) :
    classifyDanger c b w h = "critical" ∨ classifyDanger c b w h = "moderate" ∨
      classifyDanger c b w h = "minor" := by
  simp only [classifyDanger]
  split
  · exact Or.inl rfl
  · split
    · exact Or.inr (Or.inl rfl)
    · exact Or.inr (Or.inr rfl)

/-! ## C1: tier assignment -/

/-- Tier assignment exactly as the spec words it (spec section 4.2):
`bbox_area = max(0, x2−x1) * max(0, y2−y1)`, `image_area = max(w*h, 1)`,
`area_ratio = bbox_area / image_area`,
`danger_score = 0.7·confidence + 0.3·min(area_ratio / 0.15, 1)`, then the
first-match tier rules. -/
def dangerTierSpec (confidence x1 y1 x2 y2 : ℚ) (w h : ℤ) : String :=
  let bboxArea := max 0 (x2 - x1) * max 0 (y2 - y1)
  let imgArea : ℚ := ((max (w * h) 1 : ℤ) : ℚ)
  let areaRatio := bboxArea / imgArea
  let dangerScore := 7 / 10 * confidence + 3 / 10 * min (areaRatio / (15 / 100)) 1
  if confidence ≥ 75 / 100 ∨ dangerScore ≥ 70 / 100 then "critical"
  else if confidence ≥ 50 / 100 ∨ dangerScore ≥ 40 / 100 then "moderate"
  else "minor"

/-- C1: for every raw detection and image dimensions, `_classify_danger`
implements the spec's first-match tier rules with
`danger_score = 0.7·confidence + 0.3·min(area_ratio / 0.15, 1)`, and a
confidence of exactly 0.75 is classified `critical`. -/
theorem c1_danger_tier_rule :
    (∀ (confidence x1 y1 x2 y2 : ℚ) (w h : ℤ),
      classifyDanger confidence [x1, y1, x2, y2] w h =
        dangerTierSpec confidence x1 y1 x2 y2 w h) ∧
    (∀ (bbox : List ℚ) (w h : ℤ), classifyDanger (75 / 100) bbox w h = "critical") := by
  constructor
  · intro c x1 y1 x2 y2 w h
    have harea : computeBboxArea [x1, y1, x2, y2] = max 0 (x2 - x1) * max 0 (y2 - y1) := by
      simp [computeBboxArea]
    have hscore : ∀ s : ℚ, c * (7 / 10) + s * (3 / 10) = 7 / 10 * c + 3 / 10 * s := by
      intro s; ring
    simp only [classifyDanger, dangerTierSpec, imageArea, harea, hscore,
      dangerThresholdConfidenceCritical, dangerThresholdConfidenceModerate, ge_iff_le]
  · intro bbox w h
    unfold classifyDanger dangerThresholdConfidenceCritical
    simp

/-! ## C2: ranking and primary selection -/

/-- C2: for a non-empty detection list, `all_detections` is a stable sort of
the classified detections under ascending `danger_priority` with ties broken
by descending `confidence` (exact ties on both keys keep emission order, the
filter equations), and the top-level per-detection fields of the response are
exactly those of the head of that sorted sequence, which is below every
element in the sort order. -/
theorem c2_ranking_primary (boxes : List RawDetection) (w h : ℤ) (hne : boxes ≠ []) :
    ((detectFromBoxes boxes w h).all_detections).Perm
        (boxes.map (fun r => buildDetection r w h)) ∧
    List.Sorted (fun a b => keyLe a b = true) (detectFromBoxes boxes w h).all_detections ∧
    (∀ (p : ℕ) (c : ℚ),
      ((detectFromBoxes boxes w h).all_detections).filter
          (fun x => decide (x.danger_priority = p ∧ x.confidence = c)) =
        (boxes.map (fun r => buildDetection r w h)).filter
          (fun x => decide (x.danger_priority = p ∧ x.confidence = c))) ∧
    (∃ best rest, (detectFromBoxes boxes w h).all_detections = best :: rest ∧
      (detectFromBoxes boxes w h).defect_type = some best.defect_type ∧
      (detectFromBoxes boxes w h).raw_class = some best.raw_class ∧
      (detectFromBoxes boxes w h).confidence = some best.confidence ∧
      (detectFromBoxes boxes w h).danger_level = some best.danger_level ∧
      (detectFromBoxes boxes w h).danger_label = some best.danger_label ∧
      (detectFromBoxes boxes w h).danger_priority = some best.danger_priority ∧
      (detectFromBoxes boxes w h).severity = some best.severity ∧
      (detectFromBoxes boxes w h).bbox = some best.bbox ∧
      ∀ d ∈ (detectFromBoxes boxes w h).all_detections, keyLe best d = true) := by
  have hni : boxes.isEmpty = false := by
    cases boxes with
    | nil => exact absurd rfl hne
    | cons a l => rfl
  have hlen : (rankDetections (boxes.map (fun r => buildDetection r w h))).length =
      (boxes.map (fun r => buildDetection r w h)).length :=
    (List.mergeSort_perm _ keyLe).length_eq
  obtain ⟨best, rest, hranked⟩ :
      ∃ best rest, rankDetections (boxes.map (fun r => buildDetection r w h)) =
        best :: rest := by
    cases hr : rankDetections (boxes.map (fun r => buildDetection r w h)) with
    | nil =>
      rw [hr] at hlen
      cases boxes with
      | nil => exact absurd rfl hne
      | cons a l => simp at hlen
    | cons b r => exact ⟨b, r, rfl⟩
  have hsorted : List.Pairwise (fun a b => keyLe a b = true)
      (rankDetections (boxes.map (fun r => buildDetection r w h))) :=
    List.sorted_mergeSort (fun a b c h1 h2 => keyLe_trans a b c h1 h2)
      (fun a b => keyLe_total a b) _
  refine ⟨?_, ?_, ?_, ?_⟩
  · simp only [detectFromBoxes, hni, Bool.false_eq_true, if_false]
    exact List.mergeSort_perm _ keyLe
  · simp only [detectFromBoxes, hni, Bool.false_eq_true, if_false]
    exact hsorted
  · intro p c
    simp only [detectFromBoxes, hni, Bool.false_eq_true, if_false]
    apply filter_mergeSort_eq
    intro a b ha hb
    have ha' := of_decide_eq_true ha
    have hb' := of_decide_eq_true hb
    simp only [keyLe, decide_eq_true_eq]
    exact Or.inr ⟨ha'.1.trans hb'.1.symm, le_of_eq (by rw [ha'.2, hb'.2])⟩
  · refine ⟨best, rest, ?_⟩
    have hmin : ∀ d ∈ rankDetections (boxes.map (fun r => buildDetection r w h)),
        keyLe best d = true := by
      intro d hd
      rw [hranked] at hd
      rcases List.mem_cons.mp hd with hd | hd
      · subst hd
        have := keyLe_total d d
        rwa [Bool.or_self] at this
      · rw [hranked] at hsorted
        exact List.rel_of_pairwise_cons hsorted hd
    rw [hranked] at hmin
    simp only [detectFromBoxes, hni, Bool.false_eq_true, if_false, hranked,
      List.headD_cons]
    exact ⟨trivial, trivial, trivial, trivial, trivial, trivial, trivial, trivial, trivial,
      hmin⟩

/-- Witness for C2 at a concrete one-detection input. -/
theorem c2_ranking_primary_witness :
    ((detectFromBoxes [⟨"pothole", 9 / 10, [0, 0, 10, 10]⟩] 640 480).all_detections).Perm
        (([⟨"pothole", 9 / 10, [0, 0, 10, 10]⟩] : List RawDetection).map
          (fun r => buildDetection r 640 480)) ∧
    List.Sorted (fun a b => keyLe a b = true)
      (detectFromBoxes [⟨"pothole", 9 / 10, [0, 0, 10, 10]⟩] 640 480).all_detections ∧
    (∀ (p : ℕ) (c : ℚ),
      ((detectFromBoxes [⟨"pothole", 9 / 10, [0, 0, 10, 10]⟩] 640 480).all_detections).filter
          (fun x => decide (x.danger_priority = p ∧ x.confidence = c)) =
        (([⟨"pothole", 9 / 10, [0, 0, 10, 10]⟩] : List RawDetection).map
            (fun r => buildDetection r 640 480)).filter
          (fun x => decide (x.danger_priority = p ∧ x.confidence = c))) ∧
    (∃ best rest,
      (detectFromBoxes [⟨"pothole", 9 / 10, [0, 0, 10, 10]⟩] 640 480).all_detections =
        best :: rest ∧
      (detectFromBoxes [⟨"pothole", 9 / 10, [0, 0, 10, 10]⟩] 640 480).defect_type =
        some best.defect_type ∧
      (detectFromBoxes [⟨"pothole", 9 / 10, [0, 0, 10, 10]⟩] 640 480).raw_class =
        some best.raw_class ∧
      (detectFromBoxes [⟨"pothole", 9 / 10, [0, 0, 10, 10]⟩] 640 480).confidence =
        some best.confidence ∧
      (detectFromBoxes [⟨"pothole", 9 / 10, [0, 0, 10, 10]⟩] 640 480).danger_level =
        some best.danger_level ∧
      (detectFromBoxes [⟨"pothole", 9 / 10, [0, 0, 10, 10]⟩] 640 480).danger_label =
        some best.danger_label ∧
      (detectFromBoxes [⟨"pothole", 9 / 10, [0, 0, 10, 10]⟩] 640 480).danger_priority =
        some best.danger_priority ∧
      (detectFromBoxes [⟨"pothole", 9 / 10, [0, 0, 10, 10]⟩] 640 480).severity =
        some best.severity ∧
      (detectFromBoxes [⟨"pothole", 9 / 10, [0, 0, 10, 10]⟩] 640 480).bbox =
        some best.bbox ∧
      ∀ d ∈ (detectFromBoxes [⟨"pothole", 9 / 10, [0, 0, 10, 10]⟩] 640 480).all_detections,
        keyLe best d = true) :=
  c2_ranking_primary [⟨"pothole", 9 / 10, [0, 0, 10, 10]⟩] 640 480
    (List.cons_ne_nil _ _)

/-! ## C3, C4: model resolution chain -/

/-- C3: for every combination of local-file presence, override configuration
and remote-fetch outcome, `load_model` terminates successfully (it never
propagates an exception), and when the direct load and the remote fetch both
fail it resolves to the level-4 generic COCO fallback. -/
theorem c3_resolution_never_raises (env : ModelEnv) :
    (∃ src, loadModel env = Except.ok src) ∧
    (env.directLoadOk = false → env.hfDownloadOk = false →
      loadModel env = Except.ok ModelSource.cocoFallback) := by
  rcases env with ⟨le, ms, me, dl, hd, hl⟩
  constructor
  · cases le <;> cases ms <;> cases me <;> cases dl <;> cases hd <;> cases hl <;>
      exact ⟨_, rfl⟩
  · intro h1 h2
    cases h1
    cases h2
    cases le <;> cases ms <;> cases me <;> cases hl <;> rfl

/-- Witness for C3: all levels fail, resolution still succeeds at level 4. -/
theorem c3_resolution_never_raises_witness :
    (∃ src, loadModel ⟨true, true, true, false, false, true⟩ = Except.ok src) ∧
    loadModel ⟨true, true, true, false, false, true⟩ =
      Except.ok ModelSource.cocoFallback :=
  ⟨(c3_resolution_never_raises ⟨true, true, true, false, false, true⟩).1,
    (c3_resolution_never_raises ⟨true, true, true, false, false, true⟩).2 rfl rfl⟩

/-- C4: whenever the local fine-tuned weights file exists, `load_model`
selects it as the load candidate — `MODEL_PATH` is never consulted, whatever
it is set to — and if that load succeeds the resolved model is the local
fine-tuned one. -/
theorem c4_local_finetuned_priority (env : ModelEnv) (hlocal : env.localExists = true) :
    chooseCandidate env = some ModelSource.localFinetuned ∧
    (env.directLoadOk = true → loadModel env = Except.ok ModelSource.localFinetuned) := by
  constructor
  · simp [chooseCandidate, hlocal]
  · intro hload
    simp [loadModel, chooseCandidate, hlocal, hload]

/-- Witness for C4: the local file exists while `MODEL_PATH` is also set and
points to an existing, loadable file; the local fine-tuned model still wins. -/
theorem c4_local_finetuned_priority_witness :
    chooseCandidate ⟨true, true, true, true, true, true⟩ =
      some ModelSource.localFinetuned ∧
    loadModel ⟨true, true, true, true, true, true⟩ =
      Except.ok ModelSource.localFinetuned :=
  ⟨(c4_local_finetuned_priority ⟨true, true, true, true, true, true⟩ rfl).1,
    (c4_local_finetuned_priority ⟨true, true, true, true, true, true⟩ rfl).2 rfl⟩

/-! ## C5: zero detections -/

/-- C5 counterexample: with zero raw detections the `confidence` field of the
response is the number `0.0` (detector.py line 194), not `null`/absent as the
claim asserts for every detection-scalar field. -/
theorem c5_confidence_not_null_counterexample :
    (detectFromBoxes [] 640 480).confidence = some 0 ∧
    (detectFromBoxes [] 640 480).confidence ≠ none := by
  constructor
  · rfl
  · simp [detectFromBoxes]

/-- C5 amended: with zero raw detections the request still succeeds (an `ok`
response, HTTP 2xx) with `all_detections = []`, `is_valid = false` (for any
positive validity threshold), every detection-scalar field `null` except
`confidence`, which is the number `0.0`. -/
theorem c5_empty_detections (w h : ℤ) (ct : String) (threshold : ℚ)
    (hct : ct ∈ allowedTypes) (hthr : 0 < threshold) :
    detectDefect ct (some (w, h)) (Except.ok []) threshold =
      (HttpResponse.ok ⟨none, none, some 0, none, none, none, none, none, []⟩ false,
        ⟨true, true⟩) := by
  have hval : decide (threshold ≤ respConfidence
      ⟨none, none, some 0, none, none, none, none, none, []⟩) = false := by
    simp only [respConfidence, Option.getD_some]
    exact decide_eq_false (not_le.mpr hthr)
  unfold detectDefect detectRun
  rw [if_pos hct]
  simp only [detectFromBoxes, List.isEmpty_nil, if_true]
  rw [hval]

/-- Witness for C5 at a concrete request. -/
theorem c5_empty_detections_witness :
    detectDefect "image/png" (some (640, 480)) (Except.ok []) 1 =
      (HttpResponse.ok ⟨none, none, some 0, none, none, none, none, none, []⟩ false,
        ⟨true, true⟩) :=
  c5_empty_detections 640 480 "image/png" 1 (by decide) one_pos

/-! ## C6: undecodable image bytes -/

/-- C6 counterexample: undecodable body bytes produce an HTTP 500 server
error (`"Detection failed: ..."`, main.py line 126), not a client error, and
`load_model()` has already been invoked for the request (detector.py line 184
runs before the decode on line 185). -/
theorem c6_decode_failure_counterexample :
    detectDefect "image/jpeg" none (Except.ok []) (15 / 100) =
      (HttpResponse.serverError 500 "Detection failed: InvalidImage",
        ⟨true, false⟩) ∧
    (detectDefect "image/jpeg" none (Except.ok []) (15 / 100)).2.loadModelInvoked =
      true := by
  constructor <;> rfl

/-- C6 amended: for every allowed-content-type request whose bytes cannot be
decoded, the request fails with an HTTP 500 server error; `load_model()` is
invoked before the decode, but the detector's predict call never happens. -/
theorem c6_decode_failure (ct : String) (hct : ct ∈ allowedTypes)
    (predict : Except Unit (List RawDetection)) (threshold : ℚ) :
    detectDefect ct none predict threshold =
      (HttpResponse.serverError 500 "Detection failed: InvalidImage",
        ⟨true, false⟩) := by
  unfold detectDefect detectRun
  rw [if_pos hct]
  rfl

/-- Witness for C6 at a concrete request. -/
theorem c6_decode_failure_witness :
    detectDefect "image/webp" none (Except.error ()) 1 =
      (HttpResponse.serverError 500 "Detection failed: InvalidImage",
        ⟨true, false⟩) :=
  c6_decode_failure "image/webp" (by decide) (Except.error ()) 1

/-! ## C7: unsupported media type -/

/-- C7: any declared content type outside {image/jpeg, image/png, image/webp}
is rejected with HTTP 400 before any inference work: neither `load_model` nor
the predict call is invoked. -/
theorem c7_unsupported_media_type (ct : String) (hct : ct ∉ allowedTypes)
    (decode : Option (ℤ × ℤ)) (predict : Except Unit (List RawDetection))
    (threshold : ℚ) :
    detectDefect ct decode predict threshold =
      (HttpResponse.clientError 400
        ("Unsupported type: " ++ ct ++ ". Use JPEG, PNG, or WebP."),
        ⟨false, false⟩) := by
  unfold detectDefect
  rw [if_neg hct]

/-- Witness for C7 at the spec's own example `text/plain`. -/
theorem c7_unsupported_media_type_witness :
    detectDefect "text/plain" (some (640, 480)) (Except.ok []) 1 =
      (HttpResponse.clientError 400
        ("Unsupported type: " ++ "text/plain" ++ ". Use JPEG, PNG, or WebP."),
        ⟨false, false⟩) :=
  c7_unsupported_media_type "text/plain" (by decide) (some (640, 480))
    (Except.ok []) 1

/-! ## C8: danger-level / priority / severity mapping invariant -/

/-- C8: every classified detection satisfies the fixed mapping table:
critical ↦ (priority 1, severity high), moderate ↦ (priority 2, severity
medium), minor ↦ (priority 3, severity low); `danger_priority` and `severity`
are total functions of `danger_level`. -/
theorem c8_mapping_invariant (raw : RawDetection) (w h : ℤ) :
    ((buildDetection raw w h).danger_level = "critical" ∧
      (buildDetection raw w h).danger_priority = 1 ∧
      (buildDetection raw w h).severity = "high") ∨
    ((buildDetection raw w h).danger_level = "moderate" ∧
      (buildDetection raw w h).danger_priority = 2 ∧
      (buildDetection raw w h).severity = "medium") ∨
    ((buildDetection raw w h).danger_level = "minor" ∧
      (buildDetection raw w h).danger_priority = 3 ∧
      (buildDetection raw w h).severity = "low") := by
  rcases classifyDanger_cases raw.confidence (raw.bbox.map (fun v => pyRound v 2)) w h with
    hc | hc | hc
  · exact Or.inl (by simp [buildDetection, hc, DANGER_LEVELS, legacySeverityMap])
  · exact Or.inr (Or.inl (by simp [buildDetection, hc, DANGER_LEVELS, legacySeverityMap]))
  · exact Or.inr (Or.inr (by simp [buildDetection, hc, DANGER_LEVELS, legacySeverityMap]))

/-! ## C9: bbox area and division safety -/

/-- C9: for every bounding box, `_compute_bbox_area` equals
`max(0, x2−x1) * max(0, y2−y1)` and is never negative (inverted boxes give
0), and for every image dimensions — including `w*h = 0` — the divisor used
by `_classify_danger` is `max(w*h, 1) ≥ 1`, so it never divides by zero. -/
theorem c9_area_never_negative :
    (∀ x1 y1 x2 y2 : ℚ,
      computeBboxArea [x1, y1, x2, y2] = max 0 (x2 - x1) * max 0 (y2 - y1)) ∧
    (∀ bbox : List ℚ, 0 ≤ computeBboxArea bbox) ∧
    (∀ w h : ℤ, 1 ≤ imageArea w h ∧ imageArea w h ≠ 0) := by
  refine ⟨?_, ?_, ?_⟩
  · intro x1 y1 x2 y2
    simp [computeBboxArea]
  · intro bbox
    unfold computeBboxArea
    split
    · exact le_refl 0
    · exact mul_nonneg (le_max_left 0 _) (le_max_left 0 _)
  · intro w h
    have h1 : (1 : ℚ) ≤ imageArea w h := by
      unfold imageArea
      exact_mod_cast le_max_right (w * h) 1
    exact ⟨h1, ne_of_gt (lt_of_lt_of_le one_pos h1)⟩

/-! ## C10: rounding and its interaction with ranking and validity -/

/-- A raw detection whose confidence is 0.51234. -/
def rawA : RawDetection := ⟨"pothole", 51234 / 100000, [0, 0, 10, 10]⟩

/-- A raw detection whose confidence is 0.51236: it agrees with `rawA` on the
first four decimal digits, differing only beyond the fourth decimal place. -/
def rawB : RawDetection := ⟨"pothole", 51236 / 100000, [0, 0, 10, 10]⟩

/-- Evaluation fact `round(0, 2) = 0`. -/
theorem pyRound_zero : pyRound 0 2 = 0 := by
  unfold pyRound roundHalfEven
  rw [show (0 : ℚ) * 10 ^ 2 = 0 by norm_num]
  rw [floor_eq_of (0 : ℚ) 0 (by norm_num) (by norm_num)]
  norm_num

/-- Evaluation fact `round(10, 2) = 10`. -/
theorem pyRound_ten : pyRound 10 2 = 10 := by
  unfold pyRound roundHalfEven
  rw [show (10 : ℚ) * 10 ^ 2 = 1000 by norm_num]
  rw [floor_eq_of (1000 : ℚ) 1000 (by norm_num) (by norm_num)]
  norm_num

/-- The classified record for `rawA`. -/
theorem buildA_eq : buildDetection rawA 640 480 =
    ⟨"pothole", "pothole", 5123 / 10000, "moderate", "Moderate — Needs Attention", 2,
      "medium", [0, 0, 10, 10]⟩ := by
  have hcls : classifyDanger (51234 / 100000) [0, 0, 10, 10] 640 480 = "moderate" := by
    unfold classifyDanger computeBboxArea imageArea dangerThresholdConfidenceCritical
      dangerThresholdConfidenceModerate
    norm_num [min_def]
  have hrnd : pyRound (51234 / 100000) 4 = 5123 / 10000 := by
    unfold pyRound roundHalfEven
    rw [show (51234 / 100000 : ℚ) * 10 ^ 4 = 51234 / 10 by norm_num]
    rw [floor_eq_of (51234 / 10 : ℚ) 5123 (by norm_num) (by norm_num)]
    norm_num
  simp [buildDetection, rawA, CLASS_MAP, pyRound_zero, pyRound_ten, hcls, hrnd,
    DANGER_LEVELS, legacySeverityMap]

/-- The classified record for `rawB`. -/
theorem buildB_eq : buildDetection rawB 640 480 =
    ⟨"pothole", "pothole", 5124 / 10000, "moderate", "Moderate — Needs Attention", 2,
      "medium", [0, 0, 10, 10]⟩ := by
  have hcls : classifyDanger (51236 / 100000) [0, 0, 10, 10] 640 480 = "moderate" := by
    unfold classifyDanger computeBboxArea imageArea dangerThresholdConfidenceCritical
      dangerThresholdConfidenceModerate
    norm_num [min_def]
  have hrnd : pyRound (51236 / 100000) 4 = 5124 / 10000 := by
    unfold pyRound roundHalfEven
    rw [show (51236 / 100000 : ℚ) * 10 ^ 4 = 25618 / 5 by norm_num]
    rw [floor_eq_of (25618 / 5 : ℚ) 5123 (by norm_num) (by norm_num)]
    norm_num
  simp [buildDetection, rawB, CLASS_MAP, pyRound_zero, pyRound_ten, hcls, hrnd,
    DANGER_LEVELS, legacySeverityMap]

/-- C10 counterexample: `rawA` and `rawB` have equal danger priority and raw
confidences agreeing on the first four decimal digits (equal
`⌊confidence·10⁴⌋`, i.e. differing only beyond the fourth decimal place), yet
their rounded confidences differ (0.51234 → 0.5123, 0.51236 → 0.5124), the
comparator does not treat them as a tie, and ranking swaps their emission
order instead of preserving it. -/
theorem c10_fourth_decimal_counterexample :
    ⌊rawA.confidence * 10 ^ 4⌋ = ⌊rawB.confidence * 10 ^ 4⌋ ∧
    rawA.confidence ≠ rawB.confidence ∧
    (buildDetection rawA 640 480).danger_priority =
      (buildDetection rawB 640 480).danger_priority ∧
    (buildDetection rawA 640 480).confidence ≠
      (buildDetection rawB 640 480).confidence ∧
    keyLe (buildDetection rawA 640 480) (buildDetection rawB 640 480) = false ∧
    rankDetections [buildDetection rawA 640 480, buildDetection rawB 640 480] =
      [buildDetection rawB 640 480, buildDetection rawA 640 480] := by
  have hkey : keyLe (buildDetection rawA 640 480) (buildDetection rawB 640 480) =
      false := by
    rw [buildA_eq, buildB_eq]
    unfold keyLe
    apply decide_eq_false
    push_neg
    constructor
    · norm_num
    · intro hp
      norm_num
  refine ⟨?_, ?_, ?_, ?_, hkey, ?_⟩
  · show ⌊(51234 / 100000 : ℚ) * 10 ^ 4⌋ = ⌊(51236 / 100000 : ℚ) * 10 ^ 4⌋
    rw [show (51234 / 100000 : ℚ) * 10 ^ 4 = 51234 / 10 by norm_num]
    rw [show (51236 / 100000 : ℚ) * 10 ^ 4 = 25618 / 5 by norm_num]
    rw [floor_eq_of (51234 / 10 : ℚ) 5123 (by norm_num) (by norm_num)]
    rw [floor_eq_of (25618 / 5 : ℚ) 5123 (by norm_num) (by norm_num)]
  · show (51234 / 100000 : ℚ) ≠ 51236 / 100000
    norm_num
  · rw [buildA_eq, buildB_eq]
  · rw [buildA_eq, buildB_eq]
    norm_num
  · unfold rankDetections
    rw [mergeSort_pair, if_neg]
    rw [hkey]
    exact Bool.false_ne_true

/-- C10 amended: confidence is stored rounded to 4 decimal places and bbox
coordinates to 2; the ranking tie-break and `is_valid` both read the rounded
confidence: two classified detections with equal `danger_priority` and equal
(rounded) stored confidence are an exact tie for the comparator, exact ties
keep their emission order through the ranking, and the handler computes
`is_valid` by comparing the response's (rounded) confidence to the threshold.
(The original claim's premise — agreement of the raw confidences up to the
fourth decimal place — does not suffice: rounding can still separate them.) -/
theorem c10_rounding_semantics (raw : RawDetection) (w h : ℤ)
    (a b : ClassifiedDetection)
    (hpr : a.danger_priority = b.danger_priority) (hconf : a.confidence = b.confidence)
    (ds : List ClassifiedDetection) (p : ℕ) (c : ℚ)
    (ct : String) (decode : Option (ℤ × ℤ)) (predict : Except Unit (List RawDetection))
    (threshold : ℚ) (r : DetectResponse) (v : Bool) (tr : Trace)
    (hok : detectDefect ct decode predict threshold = (HttpResponse.ok r v, tr)) :
    (buildDetection raw w h).confidence = pyRound raw.confidence 4 ∧
    (buildDetection raw w h).bbox = raw.bbox.map (fun x => pyRound x 2) ∧
    (keyLe a b = true ∧ keyLe b a = true) ∧
    (rankDetections ds).filter
        (fun x => decide (x.danger_priority = p ∧ x.confidence = c)) =
      ds.filter (fun x => decide (x.danger_priority = p ∧ x.confidence = c)) ∧
    v = decide (threshold ≤ respConfidence r) := by
  refine ⟨rfl, rfl, ?_, ?_, ?_⟩
  · constructor
    · simp only [keyLe, decide_eq_true_eq]
      exact Or.inr ⟨hpr, le_of_eq (by rw [hconf])⟩
    · simp only [keyLe, decide_eq_true_eq]
      exact Or.inr ⟨hpr.symm, le_of_eq (by rw [hconf])⟩
  · apply filter_mergeSort_eq
    intro x y hx hy
    have hx' := of_decide_eq_true hx
    have hy' := of_decide_eq_true hy
    simp only [keyLe, decide_eq_true_eq]
    exact Or.inr ⟨hx'.1.trans hy'.1.symm, le_of_eq (by rw [hx'.2, hy'.2])⟩
  · unfold detectDefect at hok
    by_cases hct : ct ∈ allowedTypes
    · rw [if_pos hct] at hok
      rcases hdr : detectRun decode predict with ⟨o, tr'⟩
      rw [hdr] at hok
      cases o with
      | ok r' =>
        simp only [Prod.mk.injEq, HttpResponse.ok.injEq] at hok
        rw [← hok.1.1, hok.1.2]
      | raised m => simp at hok
    · rw [if_neg hct] at hok
      simp at hok

/-- Witness for C10 at a concrete tied pair and a concrete request. -/
theorem c10_rounding_semantics_witness :
    (buildDetection rawA 640 480).confidence = pyRound rawA.confidence 4 ∧
    (buildDetection rawA 640 480).bbox = rawA.bbox.map (fun x => pyRound x 2) ∧
    (keyLe (buildDetection rawA 640 480) (buildDetection rawA 640 480) = true ∧
      keyLe (buildDetection rawA 640 480) (buildDetection rawA 640 480) = true) ∧
    (rankDetections []).filter
        (fun x => decide (x.danger_priority = 2 ∧ x.confidence = 5123 / 10000)) =
      ([] : List ClassifiedDetection).filter
        (fun x => decide (x.danger_priority = 2 ∧ x.confidence = 5123 / 10000)) ∧
    false = decide ((1 : ℚ) ≤ respConfidence
      ⟨none, none, some 0, none, none, none, none, none, []⟩) :=
  c10_rounding_semantics rawA 640 480 (buildDetection rawA 640 480)
    (buildDetection rawA 640 480) rfl rfl [] 2 (5123 / 10000) "image/png"
    (some (640, 480)) (Except.ok []) 1
    ⟨none, none, some 0, none, none, none, none, none, []⟩ false ⟨true, true⟩
    (by rfl)

end Pothole
